import Mathlib

/-!
Shallow embedding of the DialogBrain cookie-sync background service worker
(src/background.js) and theorems checking the repository's specification
against it.

Modelling conventions:
- JavaScript string-or-undefined values are `Option String`; JavaScript
  truthiness of such a value (`undefined`/`null`/`""` are falsy) is `jsTruthy`.
- `chrome.storage.local` is the `Storage` record (the three keys the worker
  uses: `auth_token`, `instagram_account_id`, `linkedin_account_id`).
- `chrome.cookies.get` is a `CookieStore`: a function from (url, name) to an
  optional value.
- One invocation of `syncInstagramCookies` / `syncLinkedInCookies` is the
  function `syncCookies`, parameterized by `Platform`; the two JS functions are
  line-for-line identical up to the platform constants collected in the
  `Platform.*` definitions. The outcome of the `fetch` round trip (either a
  thrown exception or a response with an HTTP status code and parsed JSON body
  fields `account_id` and `status`) is an explicit `NetOutcome` input. The
  returned `SyncOutcome` carries the final storage, the final per-platform
  status object, and the endpoint URL of the network request that was issued
  (`none` when the invocation returned before `fetch`).
- The `chrome.runtime.onMessage` / `onMessageExternal` listeners are
  `handleInternal` / `handleExternal`: given the environment (cookie store,
  user agent, clock, network outcomes, manifest version) and the worker state,
  they return the new state, the reply passed to `sendResponse` (`none` when
  the callback is never invoked), the listener's boolean return value (`true`
  keeps the reply channel open; the JS `return;`/fall-through cases return
  `undefined`, modelled `false`), and the list of network requests issued.
- The `chrome.cookies.onChanged` debounce logic is modelled by `schedNotify`
  (one notification: `clearTimeout` on any pending timer, then `setTimeout`
  for `DEBOUNCE_MS`) and `runNotifs`, which replays a list of notification
  timestamps against the single per-platform timer slot `pendingSyncs[p]` and
  returns the times at which the timer fires (each fire is one sync
  invocation).
-/

-- ===========================================================================
-- Configuration (src/background.js, CONFIG)
-- ===========================================================================

def PROD_API_URL : String := "https://api.dialogbrain.com"

def DEV_API_URL : String := "http://localhost:8000"

def IS_DEV : Bool := false

def DEBOUNCE_MS : Nat := 2000

def getApiUrl : String := if IS_DEV then DEV_API_URL else PROD_API_URL

-- ===========================================================================
-- Basic JS-value modelling
-- ===========================================================================

/-- Truthiness of a JS string-or-absent value: `undefined`, `null` and the
empty string are falsy; every other string is truthy. -/
def jsTruthy : Option String → Bool
  | none => false
  | some s => !(s == "")

/-- The `x || null` normalization used in `getInstagramCookies` /
`getLinkedInCookies` (`cookies[i]?.value || null`). -/
def orNull (v : Option String) : Option String := if jsTruthy v then v else none

/-- JS `String.prototype.startsWith`: the receiver begins with the argument. -/
def strStartsWith (s p : String) : Bool := p.data.isPrefixOf s.data

-- ===========================================================================
-- Platforms and their constants
-- ===========================================================================

inductive Platform
  | instagram
  | linkedin
deriving DecidableEq

/-- Display name used in the per-platform "Not logged in to ..." error. -/
def Platform.displayName : Platform → String
  | .instagram => "Instagram"
  | .linkedin => "LinkedIn"

/-- Path segment of the platform in the API endpoints. -/
def Platform.slug : Platform → String
  | .instagram => "instagram"
  | .linkedin => "linkedin"

/-- The credential whose absence means "not logged in to the platform":
`cookies.sessionid` for Instagram, `cookies.li_at` for LinkedIn. -/
def Platform.presenceKey : Platform → String
  | .instagram => "sessionid"
  | .linkedin => "li_at"

/-- URL the worker reads the platform's cookies from. -/
def Platform.url : Platform → String
  | .instagram => "https://www.instagram.com"
  | .linkedin => "https://www.linkedin.com"

/-- INSTAGRAM_COOKIES / LINKEDIN_COOKIES. -/
def Platform.cookieNames : Platform → List String
  | .instagram => ["sessionid", "csrftoken", "ds_user_id", "mid"]
  | .linkedin => ["li_at", "li_a", "JSESSIONID"]

-- ===========================================================================
-- Persistent storage (chrome.storage.local)
-- ===========================================================================

structure Storage where
  auth_token : Option String
  instagram_account_id : Option String
  linkedin_account_id : Option String
deriving DecidableEq

/-- The persisted `<platform>_account_id` key (the LinkageRecord). -/
def Storage.accountId (st : Storage) : Platform → Option String
  | .instagram => st.instagram_account_id
  | .linkedin => st.linkedin_account_id

/-- `chrome.storage.local.set({ <platform>_account_id: v })`. -/
def Storage.setAccountId (st : Storage) (p : Platform) (v : Option String) : Storage :=
  match p with
  | .instagram => { st with instagram_account_id := v }
  | .linkedin => { st with linkedin_account_id := v }

-- ===========================================================================
-- Cookie store and credential bundles
-- ===========================================================================

/-- `chrome.cookies.get({url, name})`, as a function of url and cookie name. -/
structure CookieStore where
  get : String → String → Option String

/-- The object built by `getInstagramCookies` / `getLinkedInCookies`: each
declared cookie name mapped to its value-or-null, plus the user agent. -/
structure CredentialBundle where
  values : List (String × Option String)
  user_agent : String
deriving DecidableEq

def getCookies (p : Platform) (cs : CookieStore) (ua : String) : CredentialBundle :=
  ⟨p.cookieNames.map (fun name => (name, orNull (cs.get p.url name))), ua⟩

def bundleGet (b : CredentialBundle) (k : String) : Option String :=
  match b.values.lookup k with
  | some v => v
  | none => none

/-- `!!instagram.sessionid` / `!!linkedin.li_at`, as used by both
CHECK_COOKIES handlers. -/
def hasSession (p : Platform) (cs : CookieStore) (ua : String) : Bool :=
  jsTruthy (bundleGet (getCookies p cs ua) p.presenceKey)

-- ===========================================================================
-- Per-platform sync status objects
-- ===========================================================================

/-- One `syncStatus.<platform>` object. The optional `status` field is the
`status: data.status || 'connected'` entry present only on the success path. -/
structure SyncStatusR where
  syncing : Bool
  lastSync : Option String
  error : Option String
  status : Option String
deriving DecidableEq

/-- The status object the LOGOUT handler installs for both platforms (also the
initial value at worker start, `{ syncing: false, lastSync: null, error: null }`
differs from it only in `error`). -/
def notLoggedInStatus : SyncStatusR :=
  ⟨false, none, some "Not logged in", none⟩

-- ===========================================================================
-- The sync routine (syncInstagramCookies / syncLinkedInCookies)
-- ===========================================================================

/-- Outcome of the `fetch` round trip inside the `try` block: either some step
threw (`fetch` rejection, body read failure, ...) with an error message, or a
response arrived with HTTP status `code` and parsed JSON body fields
`account_id` and `status`. -/
inductive NetOutcome
  | exn (msg : String)
  | resp (code : Nat) (account_id : Option String) (status : Option String)
deriving DecidableEq

/-- `response.ok`: HTTP status in the 2xx range. -/
def respOk (code : Nat) : Bool := decide (200 ≤ code) && decide (code < 300)

/-- The refresh endpoint `.../accounts/<account_id>/sync-cookie`. -/
def refreshEndpoint (p : Platform) (aid : String) : String :=
  getApiUrl ++ "/api/channels/" ++ p.slug ++ "/accounts/" ++ aid ++ "/sync-cookie"

/-- The create endpoint `.../accounts/connect/cookie`. -/
def connectEndpoint (p : Platform) : String :=
  getApiUrl ++ "/api/channels/" ++ p.slug ++ "/accounts/connect/cookie"

/-- Result of one sync invocation: final storage, the status object assigned
to `syncStatus.<platform>`, and the endpoint of the issued request (`none`
when the function returned before calling `fetch`). -/
structure SyncOutcome where
  storage : Storage
  status : SyncStatusR
  request : Option String
deriving DecidableEq

/-- One invocation of `syncInstagramCookies` (`p = .instagram`) or
`syncLinkedInCookies` (`p = .linkedin`); the two JS functions are identical up
to the `Platform` constants. `now` is `new Date().toISOString()` at the time
of the success assignment. -/
def syncCookies (p : Platform) (st : Storage) (cs : CookieStore) (ua now : String)
    (net : NetOutcome) : SyncOutcome :=
  if !jsTruthy st.auth_token then
    ⟨st, ⟨false, none, some "Not logged in", none⟩, none⟩
  else
    let cookies := getCookies p cs ua
    if !jsTruthy (bundleGet cookies p.presenceKey) then
      ⟨st, ⟨false, none, some ("Not logged in to " ++ p.displayName), none⟩, none⟩
    else
      let endpoint :=
        if jsTruthy (st.accountId p) then
          refreshEndpoint p ((st.accountId p).getD "")
        else
          connectEndpoint p
      match net with
      | NetOutcome.exn msg =>
          ⟨st, ⟨false, none, some msg, none⟩, some endpoint⟩
      | NetOutcome.resp code account_id statusField =>
          if respOk code then
            let st' :=
              if jsTruthy account_id && !jsTruthy (st.accountId p) then
                st.setAccountId p account_id
              else st
            ⟨st',
             ⟨false, some now, none,
              some (if jsTruthy statusField then statusField.getD "" else "connected")⟩,
             some endpoint⟩
          else
            ⟨st, ⟨false, none, some ("HTTP " ++ toString code), none⟩, some endpoint⟩

-- ===========================================================================
-- Debounce scheduler (chrome.cookies.onChanged listener)
-- ===========================================================================

/-- Effect of one relevant cookie-change notification at time `t` on the
platform's `pendingSyncs` slot: `clearTimeout` on any pending timer, then
`setTimeout(..., DEBOUNCE_MS)`. -/
def schedNotify (pend : Option Nat) (t : Nat) : Option Nat :=
  match pend with
  | some _ => some (t + DEBOUNCE_MS)
  | none => some (t + DEBOUNCE_MS)

/-- Replay a nondecreasing list of notification timestamps against the single
per-platform timer slot, returning the times at which the debounce timer fires
(each fire is one sync invocation). A pending timer with deadline `d` fires
iff no further notification arrives strictly before `d`. -/
def runNotifs : Option Nat → List Nat → List Nat
  | pend, [] =>
      (match pend with
       | some d => [d]
       | none => [])
  | pend, t :: rest =>
      (match pend with
       | some d => if d ≤ t then [d] else []
       | none => []) ++ runNotifs (schedNotify pend t) rest

/-- Two consecutive notifications of one burst: time does not decrease and the
second arrives before the quiet period of the first elapses. -/
def burstRel (a b : Nat) : Prop := a ≤ b ∧ b < a + DEBOUNCE_MS

-- ===========================================================================
-- Message handlers
-- ===========================================================================

/-- Worker state outside persistent storage: the in-memory `syncStatus`. -/
structure BgState where
  storage : Storage
  igStatus : SyncStatusR
  liStatus : SyncStatusR
deriving DecidableEq

/-- Environment of one handler invocation: cookie store, user agent, clock
value, the network outcome each platform's `fetch` would produce, and the
manifest version string. -/
structure Env where
  cs : CookieStore
  ua : String
  now : String
  igNet : NetOutcome
  liNet : NetOutcome
  version : String

/-- Replies passed to `sendResponse`, one constructor per distinct shape. -/
inductive Reply
  | statusReply (instagram linkedin : SyncStatusR)
  | syncReply (success : Bool) (status : SyncStatusR)
  | successReply
  | cookiesReply (instagramHasSession linkedinHasSession : Bool)
  | pingReply (version : String)
  | extStatusReply (version : String) (instagram linkedin : SyncStatusR)
  | extCookiesReply (instagramHasSession linkedinHasSession : Bool)
  | extSyncReply (instagram linkedin : SyncStatusR)
  | errorReply (msg : String)
deriving DecidableEq

/-- Result of one listener invocation: new worker state, the reply passed to
`sendResponse` (`none` when the callback is never invoked), the listener's
return value (`true` keeps the channel open), and the issued requests. -/
structure HandleResult where
  state : BgState
  reply : Option Reply
  keepOpen : Bool
  requests : List String
deriving DecidableEq

inductive InternalMsg
  | GET_STATUS
  | MANUAL_SYNC (platform : String)
  | SET_AUTH_TOKEN (token : String)
  | LOGOUT
  | CHECK_COOKIES
  | other
deriving DecidableEq

/-- The `chrome.runtime.onMessage` listener. -/
def handleInternal (env : Env) (st : BgState) (msg : InternalMsg) : HandleResult :=
  match msg with
  | InternalMsg.GET_STATUS =>
      ⟨st, some (Reply.statusReply st.igStatus st.liStatus), true, []⟩
  | InternalMsg.MANUAL_SYNC platform =>
      if platform = "instagram" then
        let o := syncCookies Platform.instagram st.storage env.cs env.ua env.now env.igNet
        ⟨⟨o.storage, o.status, st.liStatus⟩, some (Reply.syncReply true o.status), true,
         o.request.toList⟩
      else if platform = "linkedin" then
        let o := syncCookies Platform.linkedin st.storage env.cs env.ua env.now env.liNet
        ⟨⟨o.storage, st.igStatus, o.status⟩, some (Reply.syncReply true o.status), true,
         o.request.toList⟩
      else
        ⟨st, none, true, []⟩
  | InternalMsg.SET_AUTH_TOKEN token =>
      ⟨⟨{ st.storage with auth_token := some token }, st.igStatus, st.liStatus⟩,
       some Reply.successReply, true, []⟩
  | InternalMsg.LOGOUT =>
      ⟨⟨⟨none, none, none⟩, notLoggedInStatus, notLoggedInStatus⟩,
       some Reply.successReply, true, []⟩
  | InternalMsg.CHECK_COOKIES =>
      ⟨st, some (Reply.cookiesReply (hasSession Platform.instagram env.cs env.ua)
                                    (hasSession Platform.linkedin env.cs env.ua)),
       true, []⟩
  | InternalMsg.other =>
      ⟨st, none, false, []⟩

inductive ExternalMsg
  | PING
  | GET_STATUS
  | SET_AUTH_TOKEN (token : String)
  | CHECK_COOKIES
  | TRIGGER_SYNC (platform : String)
  | other
deriving DecidableEq

def allowedOrigins : List String :=
  ["https://dialogbrain.com", "https://app.dialogbrain.com", "http://localhost:3000"]

/-- `allowedOrigins.some(origin => sender.origin?.startsWith(origin))`. -/
def originAllowed : Option String → Bool
  | none => false
  | some o => allowedOrigins.any (fun a => strStartsWith o a)

/-- Body of the TRIGGER_SYNC handler: conditionally sync Instagram, then
conditionally sync LinkedIn (reading the storage as updated by the first). -/
def doTrigger (env : Env) (st : BgState) (platform : String) : BgState × List String :=
  let s1 :=
    if platform = "instagram" ∨ platform = "all" then
      let o := syncCookies Platform.instagram st.storage env.cs env.ua env.now env.igNet
      ((⟨o.storage, o.status, st.liStatus⟩ : BgState), o.request.toList)
    else (st, [])
  if platform = "linkedin" ∨ platform = "all" then
    let o := syncCookies Platform.linkedin s1.1.storage env.cs env.ua env.now env.liNet
    ((⟨o.storage, s1.1.igStatus, o.status⟩ : BgState), s1.2 ++ o.request.toList)
  else s1

/-- The `chrome.runtime.onMessageExternal` listener. `origin` is
`sender.origin`. -/
def handleExternal (env : Env) (origin : Option String) (st : BgState)
    (msg : ExternalMsg) : HandleResult :=
  if !originAllowed origin then
    ⟨st, some (Reply.errorReply "Unauthorized origin"), false, []⟩
  else
    match msg with
    | ExternalMsg.PING =>
        ⟨st, some (Reply.pingReply env.version), true, []⟩
    | ExternalMsg.GET_STATUS =>
        ⟨st, some (Reply.extStatusReply env.version st.igStatus st.liStatus), true, []⟩
    | ExternalMsg.SET_AUTH_TOKEN token =>
        ⟨⟨{ st.storage with auth_token := some token }, st.igStatus, st.liStatus⟩,
         some Reply.successReply, true, []⟩
    | ExternalMsg.CHECK_COOKIES =>
        ⟨st, some (Reply.extCookiesReply (hasSession Platform.instagram env.cs env.ua)
                                         (hasSession Platform.linkedin env.cs env.ua)),
         true, []⟩
    | ExternalMsg.TRIGGER_SYNC platform =>
        let r := doTrigger env st platform
        ⟨r.1, some (Reply.extSyncReply r.1.igStatus r.1.liStatus), true, r.2⟩
    | ExternalMsg.other =>
        ⟨st, none, false, []⟩

-- ===========================================================================
-- Concrete stores and environments used by the witnesses
-- ===========================================================================

/-- A cookie store in which every cookie is present. -/
def csAll : CookieStore := ⟨fun _ _ => some "value"⟩

/-- A cookie store with the same presence as `csAll` but different values. -/
def csAll2 : CookieStore := ⟨fun _ _ => some "other"⟩

/-- A cookie store in which no cookie is present. -/
def csEmpty : CookieStore := ⟨fun _ _ => none⟩

def envDummy : Env := ⟨csEmpty, "ua", "t0", NetOutcome.exn "err", NetOutcome.exn "err", "1.0.0"⟩

def envAll : Env := ⟨csAll, "ua", "t0", NetOutcome.exn "err", NetOutcome.exn "err", "1.0.0"⟩

def envAll2 : Env := ⟨csAll2, "ua2", "t1", NetOutcome.exn "err", NetOutcome.exn "err", "1.0.0"⟩

def bgInit : BgState :=
  ⟨⟨none, none, none⟩, ⟨false, none, none, none⟩, ⟨false, none, none, none⟩⟩

-- ===========================================================================
-- Helper lemmas
-- ===========================================================================

lemma jsTruthy_isSome (v : Option String) (h : jsTruthy v = true) : v.isSome := by
  cases v <;> simp [jsTruthy] at *

lemma accountId_set (p : Platform) (st : Storage) (v : Option String) :
    (st.setAccountId p v).accountId p = v := by
  cases p <;> rfl

lemma accountId_set_ne (p q : Platform) (h : p ≠ q) (st : Storage) (v : Option String) :
    (st.setAccountId q v).accountId p = st.accountId p := by
  cases p <;> cases q <;> simp_all [Storage.setAccountId, Storage.accountId]

lemma auth_set (p : Platform) (st : Storage) (v : Option String) :
    (st.setAccountId p v).auth_token = st.auth_token := by
  cases p <;> rfl

lemma accountId_setAuth (p : Platform) (st : Storage) (v : Option String) :
    ({ st with auth_token := v }).accountId p = st.accountId p := by
  cases p <;> rfl

lemma bundleGet_presenceKey (p : Platform) (cs : CookieStore) (ua : String) :
    bundleGet (getCookies p cs ua) p.presenceKey = orNull (cs.get p.url p.presenceKey) := by
  cases p <;> rfl

lemma jsTruthy_orNull (v : Option String) : jsTruthy (orNull v) = jsTruthy v := by
  unfold orNull
  split <;> simp_all [jsTruthy]

lemma hasSession_presence (p : Platform) (cs : CookieStore) (ua : String) :
    hasSession p cs ua = jsTruthy (cs.get p.url p.presenceKey) := by
  rw [hasSession, bundleGet_presenceKey, jsTruthy_orNull]

/-- Case analysis on how one sync invocation can change the persistent
storage: either it leaves it untouched, or the response was 2xx with a truthy
`account_id` while no identifier was linked, and storage gains exactly that
identifier. -/
lemma sync_storage_cases (p : Platform) (st : Storage) (cs : CookieStore) (ua now : String)
    (net : NetOutcome) :
    (syncCookies p st cs ua now net).storage = st ∨
    (∃ code aid statusField, net = NetOutcome.resp code aid statusField ∧
      respOk code = true ∧ jsTruthy aid = true ∧ jsTruthy (st.accountId p) = false ∧
      (syncCookies p st cs ua now net).storage = st.setAccountId p aid) := by
  cases h1 : jsTruthy st.auth_token with
  | false => left; simp [syncCookies, h1]
  | true =>
    cases h2 : jsTruthy (bundleGet (getCookies p cs ua) p.presenceKey) with
    | false => left; simp [syncCookies, h1, h2]
    | true =>
      cases net with
      | exn m => left; simp [syncCookies, h1, h2]
      | resp code aid statusField =>
        cases h3 : respOk code with
        | false => left; simp [syncCookies, h1, h2, h3]
        | true =>
          cases h4 : jsTruthy aid with
          | false => left; simp [syncCookies, h1, h2, h3, h4]
          | true =>
            cases h5 : jsTruthy (st.accountId p) with
            | true => left; simp [syncCookies, h1, h2, h3, h4, h5]
            | false =>
              right
              exact ⟨code, aid, statusField, rfl, h3, h4, rfl,
                by simp [syncCookies, h1, h2, h3, h4, h5]⟩

lemma sync_preserves_isSome (p q : Platform) (st : Storage) (cs : CookieStore)
    (ua now : String) (net : NetOutcome) (hs : (st.accountId p).isSome) :
    ((syncCookies q st cs ua now net).storage.accountId p).isSome := by
  rcases sync_storage_cases q st cs ua now net with h | ⟨code, aid, stf, _, _, haid, _, hst⟩
  · rw [h]; exact hs
  · rw [hst]
    by_cases hpq : p = q
    · subst hpq; rw [accountId_set]; exact jsTruthy_isSome aid haid
    · rw [accountId_set_ne p q hpq]; exact hs

instance : DecidableRel burstRel := fun a b =>
  inferInstanceAs (Decidable (a ≤ b ∧ b < a + DEBOUNCE_MS))

lemma runNotifs_chain (rest : List Nat) : ∀ t : Nat, List.Chain burstRel t rest →
    runNotifs (some (t + DEBOUNCE_MS)) rest = [rest.getLastD t + DEBOUNCE_MS] := by
  induction rest with
  | nil => intro t _; rfl
  | cons b l ih =>
    intro t hc
    cases hc with
    | cons hab hbl =>
      have hlt : ¬ (t + DEBOUNCE_MS ≤ b) := by
        have h2 := hab.2
        omega
      rw [List.getLastD_cons]
      simp only [runNotifs, schedNotify, if_neg hlt, List.nil_append]
      exact ih b hbl

-- ===========================================================================
-- Claim theorems
-- ===========================================================================

/-- C1: For every platform, a sync invocation with the auth token absent (or
JS-falsy) returns before `fetch` — no network call — leaving the platform's
status as the disconnected record the spec labels
`Disconnected("not_logged_in_to_extension")` (code string "Not logged in");
with the auth token present but the platform's presence-key credential
(`sessionid` / `li_at`) absent, it likewise issues no network call and leaves
the status the spec labels `Disconnected("not_logged_in_to_platform")` (code
string "Not logged in to Instagram" / "Not logged in to LinkedIn"). Storage is
untouched in both cases. -/
theorem C1_sync_gating (p : Platform) (st : Storage) (cs : CookieStore)
    (ua now : String) (net : NetOutcome) :
    (jsTruthy st.auth_token = false →
      syncCookies p st cs ua now net =
        ⟨st, ⟨false, none, some "Not logged in", none⟩, none⟩)
    ∧ (jsTruthy st.auth_token = true →
       jsTruthy (bundleGet (getCookies p cs ua) p.presenceKey) = false →
      syncCookies p st cs ua now net =
        ⟨st, ⟨false, none, some ("Not logged in to " ++ p.displayName), none⟩, none⟩) := by
  constructor
  · intro h
    simp [syncCookies, h]
  · intro h1 h2
    simp [syncCookies, h1, h2]

theorem C1_sync_gating_witness :
    syncCookies Platform.instagram ⟨none, none, none⟩ csAll "ua" "t0" (NetOutcome.exn "boom")
      = ⟨⟨none, none, none⟩, ⟨false, none, some "Not logged in", none⟩, none⟩
    ∧ syncCookies Platform.linkedin ⟨some "tok", none, none⟩ csEmpty "ua" "t0"
        (NetOutcome.exn "boom")
      = ⟨⟨some "tok", none, none⟩,
         ⟨false, none, some ("Not logged in to " ++ Platform.linkedin.displayName), none⟩,
         none⟩ :=
  ⟨(C1_sync_gating Platform.instagram ⟨none, none, none⟩ csAll "ua" "t0"
      (NetOutcome.exn "boom")).1 (by decide),
   (C1_sync_gating Platform.linkedin ⟨some "tok", none, none⟩ csEmpty "ua" "t0"
      (NetOutcome.exn "boom")).2 (by decide) (by decide)⟩

/-- C2: Every sync invocation that passes both gates issues exactly one
request, whose endpoint is chosen by re-reading the persisted
`<platform>_account_id` on this invocation: the refresh endpoint
`.../accounts/<account_id>/sync-cookie` when a linkage identifier is present,
the create endpoint `.../accounts/connect/cookie` otherwise. Moreover, after a
successful create that persisted an identifier, every subsequent sync for the
platform (any cookies, clock, and network outcome) targets the refresh
endpoint parameterized by that identifier. -/
theorem C2_endpoint_selection (p : Platform) (st : Storage) (cs : CookieStore)
    (ua now : String) (net : NetOutcome)
    (hauth : jsTruthy st.auth_token = true)
    (hpres : jsTruthy (bundleGet (getCookies p cs ua) p.presenceKey) = true) :
    ((syncCookies p st cs ua now net).request =
      some (if jsTruthy (st.accountId p) then refreshEndpoint p ((st.accountId p).getD "")
            else connectEndpoint p))
    ∧ (∀ code aid statusField, net = NetOutcome.resp code aid statusField →
        respOk code = true → jsTruthy aid = true → jsTruthy (st.accountId p) = false →
        ∀ cs' ua' now' net',
          jsTruthy (bundleGet (getCookies p cs' ua') p.presenceKey) = true →
          (syncCookies p (syncCookies p st cs ua now net).storage cs' ua' now' net').request
            = some (refreshEndpoint p (aid.getD ""))) := by
  constructor
  · cases net with
    | exn m => simp [syncCookies, hauth, hpres]
    | resp code aid statusField =>
      cases h3 : respOk code with
      | false => simp [syncCookies, hauth, hpres, h3]
      | true => simp [syncCookies, hauth, hpres, h3]
  · intro code aid statusField hnet hok haid hacc cs' ua' now' net' hpres'
    subst hnet
    have hst : (syncCookies p st cs ua now
        (NetOutcome.resp code aid statusField)).storage = st.setAccountId p aid := by
      simp [syncCookies, hauth, hpres, hok, haid, hacc]
    rw [hst]
    have hauth' : jsTruthy (st.setAccountId p aid).auth_token = true := by
      rw [auth_set]; exact hauth
    have hlinked : jsTruthy ((st.setAccountId p aid).accountId p) = true := by
      rw [accountId_set]; exact haid
    cases net' with
    | exn m =>
      simp [syncCookies, hauth', hpres', hlinked, accountId_set, haid]
    | resp code' aid' statusField' =>
      cases h3 : respOk code' with
      | false => simp [syncCookies, hauth', hpres', hlinked, accountId_set, h3, haid]
      | true => simp [syncCookies, hauth', hpres', hlinked, accountId_set, h3, haid]

theorem C2_endpoint_selection_witness :
    (syncCookies Platform.instagram ⟨some "tok", none, none⟩ csAll "ua" "t0"
      (NetOutcome.resp 200 (some "acc1") none)).request
      = some (connectEndpoint Platform.instagram)
    ∧ (syncCookies Platform.instagram
        (syncCookies Platform.instagram ⟨some "tok", none, none⟩ csAll "ua" "t0"
          (NetOutcome.resp 200 (some "acc1") none)).storage
        csAll2 "ua2" "t1" (NetOutcome.resp 500 none none)).request
      = some (refreshEndpoint Platform.instagram "acc1") :=
  ⟨(C2_endpoint_selection Platform.instagram ⟨some "tok", none, none⟩ csAll "ua" "t0"
      (NetOutcome.resp 200 (some "acc1") none) (by decide) (by decide)).1,
   (C2_endpoint_selection Platform.instagram ⟨some "tok", none, none⟩ csAll "ua" "t0"
      (NetOutcome.resp 200 (some "acc1") none) (by decide) (by decide)).2
     200 (some "acc1") none rfl (by decide) (by decide) (by decide)
     csAll2 "ua2" "t1" (NetOutcome.resp 500 none none) (by decide)⟩

/-- C5: For every external-channel message whose sender origin fails the
prefix-match against the allow-list (https://dialogbrain.com,
https://app.dialogbrain.com, http://localhost:3000), the listener replies with
the authorization error and performs no dispatch: worker state (storage and
both statuses) is unchanged and no network request is issued, for every
command type. -/
theorem C5_origin_rejected (env : Env) (origin : Option String) (st : BgState)
    (msg : ExternalMsg) (h : originAllowed origin = false) :
    handleExternal env origin st msg =
      ⟨st, some (Reply.errorReply "Unauthorized origin"), false, []⟩ := by
  simp [handleExternal, h]

set_option maxRecDepth 4000 in
theorem C5_origin_rejected_witness :
    handleExternal envAll (some "https://evil.example") bgInit ExternalMsg.GET_STATUS =
      ⟨bgInit, some (Reply.errorReply "Unauthorized origin"), false, []⟩ :=
  C5_origin_rejected envAll (some "https://evil.example") bgInit ExternalMsg.GET_STATUS
    (by decide)

/-- C6: The LOGOUT handler removes the auth token and both platforms' linkage
records and resets both platforms' status to the record the spec labels
`Disconnected("not_logged_in")` — syncing false, lastSync absent, error
"Not logged in", no status field — independently of the prior state; hence
calling it when already logged out yields the same resulting state, and
calling it twice in a row equals calling it once. -/
theorem C6_logout_idempotent (env : Env) (st : BgState) :
    handleInternal env st InternalMsg.LOGOUT =
      ⟨⟨⟨none, none, none⟩,
        ⟨false, none, some "Not logged in", none⟩,
        ⟨false, none, some "Not logged in", none⟩⟩,
       some Reply.successReply, true, []⟩
    ∧ (handleInternal env (handleInternal env st InternalMsg.LOGOUT).state
         InternalMsg.LOGOUT).state
      = (handleInternal env st InternalMsg.LOGOUT).state :=
  ⟨rfl, rfl⟩

/-- C7: For every sync invocation that passes both gates and receives a
non-2xx response, the platform status becomes the disconnected record whose
error is the string "HTTP <code>" recording the numeric status — and, as the
spec notes of this implementation, its `lastSync` is `null` (absent), not the
previous value. Storage is unchanged. -/
theorem C7_http_failure (p : Platform) (st : Storage) (cs : CookieStore)
    (ua now : String) (code : Nat) (aid statusField : Option String)
    (hauth : jsTruthy st.auth_token = true)
    (hpres : jsTruthy (bundleGet (getCookies p cs ua) p.presenceKey) = true)
    (hcode : respOk code = false) :
    (syncCookies p st cs ua now (NetOutcome.resp code aid statusField)).status
      = ⟨false, none, some ("HTTP " ++ toString code), none⟩
    ∧ (syncCookies p st cs ua now (NetOutcome.resp code aid statusField)).storage = st := by
  constructor <;> simp [syncCookies, hauth, hpres, hcode]

theorem C7_http_failure_witness :
    (syncCookies Platform.instagram ⟨some "tok", none, none⟩ csAll "ua" "t0"
      (NetOutcome.resp 500 none none)).status
      = ⟨false, none, some ("HTTP " ++ toString (500 : Nat)), none⟩ :=
  (C7_http_failure Platform.instagram ⟨some "tok", none, none⟩ csAll "ua" "t0"
    500 none none (by decide) (by decide) (by decide)).1

/-- C9: Every sync invocation that ends in any failure — auth token absent,
presence-key credential absent, transport-level exception, or non-2xx response
— assigns a whole fresh status record in which `lastSync` is absent and the
`status` field is absent (and `syncing` is false), regardless of the previous
per-platform status (which is not even an input of the assignment): any
evidence of a prior successful sync is erased on all failure paths. -/
theorem C9_failure_erases_lastSync (p : Platform) (st : Storage) (cs : CookieStore)
    (ua now : String) (net : NetOutcome)
    (h : ((syncCookies p st cs ua now net).status.error).isSome) :
    (syncCookies p st cs ua now net).status =
      ⟨false, none, (syncCookies p st cs ua now net).status.error, none⟩ := by
  cases h1 : jsTruthy st.auth_token with
  | false => simp [syncCookies, h1]
  | true =>
    cases h2 : jsTruthy (bundleGet (getCookies p cs ua) p.presenceKey) with
    | false => simp [syncCookies, h1, h2]
    | true =>
      cases net with
      | exn m => simp [syncCookies, h1, h2]
      | resp code aid statusField =>
        cases h3 : respOk code with
        | false => simp [syncCookies, h1, h2, h3]
        | true =>
          exfalso
          rw [show (syncCookies p st cs ua now
            (NetOutcome.resp code aid statusField)).status.error = none by
              simp [syncCookies, h1, h2, h3]] at h
          simp at h

theorem C9_failure_erases_lastSync_witness :
    (syncCookies Platform.linkedin ⟨some "tok", none, none⟩ csAll "ua" "t9"
      (NetOutcome.exn "network down")).status =
      ⟨false, none,
       (syncCookies Platform.linkedin ⟨some "tok", none, none⟩ csAll "ua" "t9"
         (NetOutcome.exn "network down")).status.error, none⟩ :=
  C9_failure_erases_lastSync Platform.linkedin ⟨some "tok", none, none⟩ csAll "ua" "t9"
    (NetOutcome.exn "network down") (by decide)

/-- C10: An internal MANUAL_SYNC message whose platform is neither "instagram"
nor "linkedin" matches neither branch: no sync runs (state unchanged, no
request issued), `sendResponse` is never called (reply `none`), and the
listener still returns `true`, keeping the reply channel open so the caller
receives neither a success nor an error reply. -/
theorem C10_manual_sync_unknown_platform (env : Env) (st : BgState) (platform : String)
    (h1 : platform ≠ "instagram") (h2 : platform ≠ "linkedin") :
    handleInternal env st (InternalMsg.MANUAL_SYNC platform) = ⟨st, none, true, []⟩ := by
  simp [handleInternal, h1, h2]

theorem C10_manual_sync_unknown_platform_witness :
    handleInternal envAll bgInit (InternalMsg.MANUAL_SYNC "twitter")
      = ⟨bgInit, none, true, []⟩ :=
  C10_manual_sync_unknown_platform envAll bgInit "twitter" (by decide) (by decide)

/-- C4: Debounce coalescing. For every nonempty burst of notification
timestamps for one platform — each arriving no earlier than, and strictly
within the 2000 ms quiet period of, the previous one — replaying the burst
against the platform's single timer slot fires the debounce timer exactly
once, at the last timestamp plus the quiet period; and each notification
unconditionally cancels and replaces the pending timer with one due
`DEBOUNCE_MS` after itself, so at most one pending timer per platform exists
at any time (the slot holds at most one deadline by construction). -/
theorem C4_debounce_coalescing (ts : List Nat) (hne : ts ≠ [])
    (hb : List.Chain' burstRel ts) :
    runNotifs none ts = [ts.getLastD 0 + DEBOUNCE_MS]
    ∧ ∀ pend t, schedNotify pend t = some (t + DEBOUNCE_MS) := by
  constructor
  · cases ts with
    | nil => exact absurd rfl hne
    | cons t rest =>
      have hc : List.Chain burstRel t rest := hb
      rw [List.getLastD_cons]
      simp only [runNotifs, schedNotify, List.nil_append]
      exact runNotifs_chain rest t hc
  · intro pend t
    cases pend <;> rfl

theorem C4_debounce_coalescing_witness :
    runNotifs none [0, 1500, 2500, 3000] = [3000 + DEBOUNCE_MS] :=
  (C4_debounce_coalescing [0, 1500, 2500, 3000] (by decide)
    (show List.Chain burstRel 0 [1500, 2500, 3000] from
      List.Chain.cons ⟨by decide, by decide⟩
        (List.Chain.cons ⟨by decide, by decide⟩
          (List.Chain.cons ⟨by decide, by decide⟩ List.Chain.nil)))).1

/-- C8: The CHECK_COOKIES reply, on both channels, is built only from the two
per-platform presence booleans (`hasSession`, which equals whether the
platform's presence-key credential — `sessionid` / `li_at` — is a present,
truthy value in the cookie store); no credential value occurs in the reply, so
any two environments whose cookie stores agree on presence-key presence yield
identical replies, whatever the stored values, the rest of the stores, or the
worker states. -/
theorem C8_check_cookies_boolean_only (env env' : Env) (st st' : BgState)
    (origin : Option String)
    (hall : originAllowed origin = true)
    (hig : hasSession Platform.instagram env.cs env.ua
            = hasSession Platform.instagram env'.cs env'.ua)
    (hli : hasSession Platform.linkedin env.cs env.ua
            = hasSession Platform.linkedin env'.cs env'.ua) :
    (∀ p, hasSession p env.cs env.ua = jsTruthy (env.cs.get p.url p.presenceKey))
    ∧ (handleInternal env st InternalMsg.CHECK_COOKIES).reply
      = some (Reply.cookiesReply (hasSession Platform.instagram env.cs env.ua)
                                 (hasSession Platform.linkedin env.cs env.ua))
    ∧ (handleExternal env origin st ExternalMsg.CHECK_COOKIES).reply
      = some (Reply.extCookiesReply (hasSession Platform.instagram env.cs env.ua)
                                    (hasSession Platform.linkedin env.cs env.ua))
    ∧ (handleInternal env st InternalMsg.CHECK_COOKIES).reply
      = (handleInternal env' st' InternalMsg.CHECK_COOKIES).reply
    ∧ (handleExternal env origin st ExternalMsg.CHECK_COOKIES).reply
      = (handleExternal env' origin st' ExternalMsg.CHECK_COOKIES).reply := by
  refine ⟨fun p => hasSession_presence p env.cs env.ua, rfl, ?_, ?_, ?_⟩
  · simp [handleExternal, hall]
  · simp [handleInternal, hig, hli]
  · simp [handleExternal, hall, hig, hli]

set_option maxRecDepth 4000 in
theorem C8_check_cookies_boolean_only_witness :
    (handleInternal envAll bgInit InternalMsg.CHECK_COOKIES).reply
      = (handleInternal envAll2 bgInit InternalMsg.CHECK_COOKIES).reply :=
  (C8_check_cookies_boolean_only envAll envAll2 bgInit bgInit
    (some "https://dialogbrain.com") (by decide) (by decide) (by decide)).2.2.2.1

lemma doTrigger_preserves_isSome (env : Env) (bg : BgState) (platform : String)
    (p : Platform) (hs : (bg.storage.accountId p).isSome) :
    ((doTrigger env bg platform).1.storage.accountId p).isSome := by
  unfold doTrigger
  by_cases h2 : (platform = "linkedin" ∨ platform = "all")
  · by_cases h1 : (platform = "instagram" ∨ platform = "all")
    · simp only [if_pos h1, if_pos h2]
      exact sync_preserves_isSome p Platform.linkedin _ env.cs env.ua env.now env.liNet
        (sync_preserves_isSome p Platform.instagram bg.storage env.cs env.ua env.now
          env.igNet hs)
    · simp only [if_neg h1, if_pos h2]
      exact sync_preserves_isSome p Platform.linkedin bg.storage env.cs env.ua env.now
        env.liNet hs
  · by_cases h1 : (platform = "instagram" ∨ platform = "all")
    · simp only [if_pos h1, if_neg h2]
      exact sync_preserves_isSome p Platform.instagram bg.storage env.cs env.ua env.now
        env.igNet hs
    · simp only [if_neg h1, if_neg h2]
      exact hs

/-- C3: The linkage record (`<platform>_account_id`). (1) When a sync changes
it, the network outcome was a 2xx response carrying a truthy `account_id`, no
identifier was previously linked, and the new value is exactly the returned
identifier. (2) When an identifier is already linked, no sync overwrites it.
(3) A sync never removes a present identifier. (4) The LOGOUT handler removes
it. (5) No other internal command removes it. (6) No external command removes
it. -/
theorem C3_linkage_record (p : Platform) (st : Storage) (cs : CookieStore) (ua now : String)
    (net : NetOutcome) (env : Env) (bg : BgState) (msg : InternalMsg)
    (origin : Option String) (emsg : ExternalMsg) :
    ((syncCookies p st cs ua now net).storage.accountId p ≠ st.accountId p →
      jsTruthy (st.accountId p) = false ∧
      ∃ code aid statusField, net = NetOutcome.resp code aid statusField ∧
        respOk code = true ∧ jsTruthy aid = true ∧
        (syncCookies p st cs ua now net).storage.accountId p = aid)
    ∧ (jsTruthy (st.accountId p) = true →
        (syncCookies p st cs ua now net).storage.accountId p = st.accountId p)
    ∧ ((st.accountId p).isSome →
        ((syncCookies p st cs ua now net).storage.accountId p).isSome)
    ∧ (handleInternal env bg InternalMsg.LOGOUT).state.storage.accountId p = none
    ∧ (msg ≠ InternalMsg.LOGOUT → (bg.storage.accountId p).isSome →
        ((handleInternal env bg msg).state.storage.accountId p).isSome)
    ∧ ((bg.storage.accountId p).isSome →
        ((handleExternal env origin bg emsg).state.storage.accountId p).isSome) := by
  refine ⟨?_, ?_, ?_, ?_, ?_, ?_⟩
  · intro hne
    rcases sync_storage_cases p st cs ua now net with h |
      ⟨code, aid, statusField, hnet, hok, haid, hacc, hst⟩
    · exact absurd (by rw [h]) hne
    · exact ⟨hacc, code, aid, statusField, hnet, hok, haid, by rw [hst, accountId_set]⟩
  · intro htr
    rcases sync_storage_cases p st cs ua now net with h |
      ⟨_, _, _, _, _, _, hacc, _⟩
    · rw [h]
    · rw [hacc] at htr
      exact Bool.noConfusion htr
  · intro hs
    exact sync_preserves_isSome p p st cs ua now net hs
  · cases p <;> rfl
  · intro hmsg hs
    cases msg with
    | GET_STATUS => exact hs
    | MANUAL_SYNC platform =>
      by_cases hig : platform = "instagram"
      · subst hig
        simp only [handleInternal, if_pos rfl]
        exact sync_preserves_isSome p Platform.instagram bg.storage env.cs env.ua env.now
          env.igNet hs
      · by_cases hli : platform = "linkedin"
        · subst hli
          simp only [handleInternal, if_neg hig, if_pos rfl]
          exact sync_preserves_isSome p Platform.linkedin bg.storage env.cs env.ua env.now
            env.liNet hs
        · simp only [handleInternal, if_neg hig, if_neg hli]
          exact hs
    | SET_AUTH_TOKEN token =>
      simp only [handleInternal, accountId_setAuth]
      exact hs
    | LOGOUT => exact absurd rfl hmsg
    | CHECK_COOKIES => exact hs
    | other => exact hs
  · intro hs
    cases ho : originAllowed origin with
    | false =>
      simp only [handleExternal, ho, Bool.not_false, if_pos rfl]
      exact hs
    | true =>
      cases emsg with
      | PING => simp [handleExternal, ho]; exact hs
      | GET_STATUS => simp [handleExternal, ho]; exact hs
      | SET_AUTH_TOKEN token =>
        simp only [handleExternal, ho, Bool.not_true, Bool.false_eq_true, if_false,
          accountId_setAuth]
        exact hs
      | CHECK_COOKIES => simp [handleExternal, ho]; exact hs
      | TRIGGER_SYNC platform =>
        simp only [handleExternal, ho, Bool.not_true, Bool.false_eq_true, if_false]
        exact doTrigger_preserves_isSome env bg platform p hs
      | other => simp [handleExternal, ho]; exact hs

theorem C3_linkage_record_witness :
    (jsTruthy ((⟨some "tok", none, none⟩ : Storage).accountId Platform.instagram) = false ∧
     ∃ code aid statusField,
       (NetOutcome.resp 200 (some "a1") none : NetOutcome)
         = NetOutcome.resp code aid statusField ∧
       respOk code = true ∧ jsTruthy aid = true ∧
       (syncCookies Platform.instagram ⟨some "tok", none, none⟩ csAll "ua" "t0"
         (NetOutcome.resp 200 (some "a1") none)).storage.accountId Platform.instagram = aid)
    ∧ (syncCookies Platform.instagram ⟨some "tok", some "a0", none⟩ csAll "ua" "t0"
        (NetOutcome.resp 200 (some "a1") none)).storage.accountId Platform.instagram
        = (⟨some "tok", some "a0", none⟩ : Storage).accountId Platform.instagram :=
  ⟨(C3_linkage_record Platform.instagram ⟨some "tok", none, none⟩ csAll "ua" "t0"
      (NetOutcome.resp 200 (some "a1") none) envAll bgInit InternalMsg.GET_STATUS none
      ExternalMsg.PING).1 (by decide),
   (C3_linkage_record Platform.instagram ⟨some "tok", some "a0", none⟩ csAll "ua" "t0"
      (NetOutcome.resp 200 (some "a1") none) envAll bgInit InternalMsg.GET_STATUS none
      ExternalMsg.PING).2.1 (by decide)⟩
